import Mathlib

/-!
Shallow embedding of the `AppServerEventConverter` protocol-normalization
layer (source file: the converter class handling `codex/event/*` legacy
notifications and structured `thread/*`, `turn/*`, `item/*`, `error`
notifications), together with theorems settling the frozen claims about it.

JavaScript dynamic values are modelled by the inductive `Value`:
`null`/`undefined` collapse to `vNull` (both are skipped by the `??`
operator and rejected by every `as*` helper in the source), finite numbers
are `vNum` and non-finite numbers (`NaN`, `±Infinity`) are `vNaN` (the
source's `asNumber` rejects them via `Number.isFinite`).  Objects are
association lists with unique keys (JavaScript object literals cannot hold
duplicate keys); `getField` on an array or primitive yields `vNull`, which
matches the source because no array index or built-in property name is
ever read by the converter.
-/

inductive Value where
  | vNull : Value
  | vStr : String → Value
  | vBool : Bool → Value
  | vNum : Int → Value
  | vNaN : Value
  | vArr : List Value → Value
  | vObj : List (String × Value) → Value
deriving Repr

/-- JavaScript objects, modelled as ordered association lists. -/
abbrev Obj := List (String × Value)

/-- First-match lookup in an association list (JS property read). -/
def getKey (o : Obj) (k : String) : Option Value :=
  match o with
  | [] => none
  | (k', v) :: rest => if k' = k then some v else getKey rest k

/-- JS property assignment: replace an existing key in place, else append. -/
def setKey (o : Obj) (k : String) (v : Value) : Obj :=
  match o with
  | [] => [(k, v)]
  | (k', v') :: rest => if k' = k then (k, v) :: rest else (k', v') :: setKey rest k v

/-- JS object spread `{...o, ...m}`: fold every field of `m` into `o`. -/
def spread (o : Obj) (m : Obj) : Obj :=
  m.foldl (fun acc kv => setKey acc kv.1 kv.2) o

/-- JS property read `v.k`: `vNull` when `v` is not an object or lacks `k`. -/
def Value.getField (v : Value) (k : String) : Value :=
  match v with
  | .vObj fields => (getKey fields k).getD .vNull
  | _ => .vNull

/-- JS nullish coalescing `a ?? b` (both `null` and `undefined` are `vNull`). -/
def alt (a b : Value) : Value :=
  match a with
  | .vNull => b
  | _ => a

/-- Fields seen by a spread `...v` (arrays spread only index keys, which the
converter never constructs events from; the spread sites all guard on a
`type` field first, which arrays cannot have). -/
def fieldsOf : Value → Obj
  | .vObj f => f
  | _ => []

/-- Source `asRecord`: any truthy value with `typeof === 'object'`, i.e. an
object or an array; `null` is excluded by the truthiness check. -/
def asRecord : Value → Option Value
  | .vObj f => some (.vObj f)
  | .vArr xs => some (.vArr xs)
  | _ => none

/-- Source `asString`: a string of positive length, else `null`
(`value.length > 0` is stated as `s ≠ ""`, which is equivalent). -/
def asString : Value → Option String
  | .vStr s => if s = "" then none else some s
  | _ => none

/-- Source `asBoolean`. -/
def asBoolean : Value → Option Bool
  | .vBool b => some b
  | _ => none

/-- Source `asNumber`: finite numbers only (`vNaN` models `NaN`/`Infinity`). -/
def asNumber : Value → Option Int
  | .vNum n => some n
  | _ => none

/-- Source `extractItemId`. -/
def extractItemId (params : Value) : Option String :=
  match asString (alt (params.getField "itemId")
      (alt (params.getField "item_id") (params.getField "id"))) with
  | some direct => some direct
  | none =>
    match asRecord (params.getField "item") with
    | some item =>
        asString (alt (item.getField "id")
          (alt (item.getField "itemId") (item.getField "item_id")))
    | none => none

/-- Source `extractItem`: `asRecord(params.item) ?? params`. -/
def extractItem (params : Value) : Value :=
  match asRecord (params.getField "item") with
  | some item => item
  | none => params

/-- `p` is an initial segment of `s` (character lists). -/
def isCharListInit : List Char → List Char → Bool
  | [], _ => true
  | _ :: _, [] => false
  | a :: as, b :: bs => a == b && isCharListInit as bs

/-- JS `String.prototype.startsWith`. -/
def strStartsWith (s p : String) : Bool := isCharListInit p.toList s.toList

/-- JS `String.prototype.toLowerCase` (ASCII; every string it is compared
against in the source is ASCII). -/
def strToLower (s : String) : String := String.mk (s.toList.map Char.toLower)

/-- Characters removed by the source's `replace(/[\s_-]/g, '')`
(ASCII whitespace class plus underscore and hyphen). -/
def isStrippedChar (c : Char) : Bool :=
  c = ' ' || c = '\t' || c = '\n' || c = '\r' || c = '\x0b' || c = '\x0c' ||
    c = '_' || c = '-'

/-- Source `normalizeItemType`: lowercase, then drop whitespace/underscore/hyphen. -/
def normalizeItemType (v : Value) : Option String :=
  match asString v with
  | none => none
  | some raw => some (String.mk ((strToLower raw).toList.filter (fun c => !isStrippedChar c)))

/-- Source `extractCommand`: a string passes through; an array keeps its
string elements and joins them with single spaces. -/
def extractCommand : Value → Option String
  | .vStr s => some s
  | .vArr elems =>
    let parts := elems.filterMap (fun v => match v with | .vStr s => some s | _ => none)
    if parts.length > 0 then some (String.intercalate " " parts) else none
  | _ => none

/-- Source `extractChanges`.  Note that `asRecord` accepts arrays, so the
array-folding branch below is unreachable (the source has the same dead
branch: `Array.isArray(value)` can only be true when `asRecord(value)`
already returned the value). -/
def extractChanges (v : Value) : Option Value :=
  match asRecord v with
  | some record => some record
  | none =>
    match v with
    | .vArr entries =>
      let changes := entries.foldl (fun (acc : Obj) entry =>
        match asRecord entry with
        | none => acc
        | some entryRecord =>
          match asString (alt (entryRecord.getField "path")
              (alt (entryRecord.getField "file")
                (alt (entryRecord.getField "filePath")
                  (entryRecord.getField "file_path")))) with
          | some path => setKey acc path entry
          | none => acc) []
      if changes.length > 0 then some (.vObj changes) else none
    | _ => none

/-- `...(x ? { k: x } : {})` for an optional string (empty strings are falsy). -/
def addStrTruthy (o : Obj) (k : String) (v : Option String) : Obj :=
  match v with
  | some s => if s = "" then o else setKey o k (.vStr s)
  | none => o

/-- `...(x ? { k: x } : {})` for an optional number (`0` is falsy). -/
def addNumTruthy (o : Obj) (k : String) (v : Option Int) : Obj :=
  match v with
  | some n => if n = 0 then o else setKey o k (.vNum n)
  | none => o

/-- `...(x !== null ? { k: x } : {})` for an optional number. -/
def addOptNum (o : Obj) (k : String) (v : Option Int) : Obj :=
  match v with
  | some n => setKey o k (.vNum n)
  | none => o

/-- `if (x !== null) o.k = x` for an optional boolean. -/
def addOptBool (o : Obj) (k : String) (v : Option Bool) : Obj :=
  match v with
  | some b => setKey o k (.vBool b)
  | none => o

/-- `if (x) o.k = x` for an optional object value (objects are always truthy). -/
def addOptVal (o : Obj) (k : String) (v : Option Value) : Obj :=
  match v with
  | some x => setKey o k x
  | none => o

/-! ### A model of the ECMAScript `JSON.parse` builtin

Used by the source only to try to unwrap a `detail` field out of an error
message string.  Fuel-based recursive descent over the character list;
numeric values are truncated to their integer part (the converter never
reads a parsed number), and the leading-zero restriction of the JSON
number grammar is not enforced — neither difference is observable by any
claim, which only depend on whether a message parses to an object with a
string `detail` field. -/

def isJsonWs (c : Char) : Bool :=
  c = ' ' || c = '\t' || c = '\n' || c = '\r'

def skipWs : List Char → List Char
  | [] => []
  | c :: rest => if isJsonWs c then skipWs rest else c :: rest

def hexDigitVal (c : Char) : Option Nat :=
  if '0' ≤ c ∧ c ≤ '9' then some (c.toNat - '0'.toNat)
  else if 'a' ≤ c ∧ c ≤ 'f' then some (c.toNat - 'a'.toNat + 10)
  else if 'A' ≤ c ∧ c ≤ 'F' then some (c.toNat - 'A'.toNat + 10)
  else none

def parseStringBody : Nat → List Char → Option (String × List Char)
  | 0, _ => none
  | fuel + 1, cs =>
    match cs with
    | [] => none
    | '"' :: rest => some ("", rest)
    | '\\' :: rest =>
      (match rest with
       | [] => none
       | e :: rest' =>
         let cont := fun (c : Char) (r : List Char) =>
           match parseStringBody fuel r with
           | some (s, r') => some (String.mk (c :: s.toList), r')
           | none => none
         match e with
         | '"' => cont '"' rest'
         | '\\' => cont '\\' rest'
         | '/' => cont '/' rest'
         | 'b' => cont '\x08' rest'
         | 'f' => cont '\x0c' rest'
         | 'n' => cont '\n' rest'
         | 'r' => cont '\r' rest'
         | 't' => cont '\t' rest'
         | 'u' =>
           match rest' with
           | h1 :: h2 :: h3 :: h4 :: rest2 =>
             (match hexDigitVal h1, hexDigitVal h2, hexDigitVal h3, hexDigitVal h4 with
              | some a, some b, some c, some d =>
                cont (Char.ofNat (((a * 16 + b) * 16 + c) * 16 + d)) rest2
              | _, _, _, _ => none)
           | _ => none
         | _ => none)
    | c :: rest =>
      if c.toNat < 32 then none
      else
        match parseStringBody fuel rest with
        | some (s, r) => some (String.mk (c :: s.toList), r)
        | none => none

def takeDigits : List Char → List Char × List Char
  | [] => ([], [])
  | c :: rest =>
    if c.isDigit then
      let (ds, r) := takeDigits rest
      (c :: ds, r)
    else ([], c :: rest)

def digitsToNat (ds : List Char) : Nat :=
  ds.foldl (fun acc c => acc * 10 + (c.toNat - '0'.toNat)) 0

def parseFracExp (cs : List Char) : Option (List Char) :=
  let afterFrac : Option (List Char) :=
    match cs with
    | '.' :: rest =>
      let (ds, r) := takeDigits rest
      if ds.isEmpty then none else some r
    | _ => some cs
  match afterFrac with
  | none => none
  | some cs1 =>
    match cs1 with
    | 'e' :: rest =>
      let rest2 := match rest with
        | '+' :: r => r
        | '-' :: r => r
        | r => r
      let (ds, r) := takeDigits rest2
      if ds.isEmpty then none else some r
    | 'E' :: rest =>
      let rest2 := match rest with
        | '+' :: r => r
        | '-' :: r => r
        | r => r
      let (ds, r) := takeDigits rest2
      if ds.isEmpty then none else some r
    | _ => some cs1

def parseNumberFrom (cs : List Char) : Option (Value × List Char) :=
  let (neg, cs1) := match cs with
    | '-' :: rest => (true, rest)
    | _ => (false, cs)
  match cs1 with
  | [] => none
  | c :: _ =>
    if c.isDigit then
      let (ds, r) := takeDigits cs1
      match parseFracExp r with
      | some r2 =>
        let n : Int := Int.ofNat (digitsToNat ds)
        some (.vNum (if neg then -n else n), r2)
      | none => none
    else none

mutual

def parseJsonValue : Nat → List Char → Option (Value × List Char)
  | 0, _ => none
  | fuel + 1, cs =>
    match skipWs cs with
    | 'n' :: 'u' :: 'l' :: 'l' :: rest => some (.vNull, rest)
    | 't' :: 'r' :: 'u' :: 'e' :: rest => some (.vBool true, rest)
    | 'f' :: 'a' :: 'l' :: 's' :: 'e' :: rest => some (.vBool false, rest)
    | '"' :: rest =>
      (match parseStringBody (rest.length + 1) rest with
       | some (s, r) => some (.vStr s, r)
       | none => none)
    | '[' :: rest =>
      (match skipWs rest with
       | ']' :: r => some (.vArr [], r)
       | other => parseArrayElems fuel other [])
    | '\x7b' :: rest =>
      (match skipWs rest with
       | '\x7d' :: r => some (.vObj [], r)
       | other => parseObjectFields fuel other [])
    | other => parseNumberFrom other

def parseArrayElems : Nat → List Char → List Value → Option (Value × List Char)
  | 0, _, _ => none
  | fuel + 1, cs, acc =>
    match parseJsonValue fuel cs with
    | none => none
    | some (v, rest) =>
      match skipWs rest with
      | ',' :: rest2 => parseArrayElems fuel rest2 (acc ++ [v])
      | ']' :: rest2 => some (.vArr (acc ++ [v]), rest2)
      | _ => none

def parseObjectFields : Nat → List Char → Obj → Option (Value × List Char)
  | 0, _, _ => none
  | fuel + 1, cs, acc =>
    match skipWs cs with
    | '"' :: rest =>
      (match parseStringBody (rest.length + 1) rest with
       | none => none
       | some (k, rest1) =>
         match skipWs rest1 with
         | ':' :: rest2 =>
           (match parseJsonValue fuel rest2 with
            | none => none
            | some (v, rest3) =>
              match skipWs rest3 with
              | ',' :: rest4 => parseObjectFields fuel rest4 (setKey acc k v)
              | '\x7d' :: rest4 => some (.vObj (setKey acc k v), rest4)
              | _ => none)
         | _ => none)
    | _ => none

end

/-- `JSON.parse`, as a total function returning `none` on a syntax error. -/
def jsonParse (s : String) : Option Value :=
  match parseJsonValue (s.length + 2) s.toList with
  | some (v, rest) => if skipWs rest = [] then some v else none
  | none => none

/-- The source's unwrap test: `JSON.parse(raw)` succeeds and yields a value
that is truthy, of object type, and whose `detail` property is a string. -/
def detailFromMessage (rawMessage : String) : Option String :=
  match jsonParse rawMessage with
  | some (.vObj fields) =>
    (match getKey fields "detail" with
     | some (.vStr d) => some d
     | _ => none)
  | _ => none

/-- The error-message policy of the legacy `error` msg branch: use the
parsed `detail` field when available, else the raw string. -/
def unwrapDetail (raw : String) : String :=
  match detailFromMessage raw with
  | some d => d
  | none => raw

/-! ### Converter state and the notification handler -/

/-- The five per-session maps owned by one `AppServerEventConverter`
instance (JS `Map`s, modelled as insertion-ordered association lists). -/
structure ConverterState where
  agentMessageBuffers : List (String × String)
  reasoningBuffers : List (String × String)
  commandOutputBuffers : List (String × String)
  commandMeta : List (String × Obj)
  fileChangeMeta : List (String × Obj)
deriving Repr

/-- `Map.get` (first match; keys are unique by construction). -/
def mapGet {α : Type} (m : List (String × α)) (k : String) : Option α :=
  match m with
  | [] => none
  | (k', v) :: rest => if k' = k then some v else mapGet rest k

/-- `Map.set`: replace in place, else append (JS Maps keep insertion order). -/
def mapSet {α : Type} (m : List (String × α)) (k : String) (v : α) : List (String × α) :=
  match m with
  | [] => [(k, v)]
  | (k', v') :: rest => if k' = k then (k, v) :: rest else (k', v') :: mapSet rest k v

/-- `Map.delete`. -/
def mapDel {α : Type} (m : List (String × α)) (k : String) : List (String × α) :=
  m.filter (fun p => p.1 != k)

/-- A fresh converter: all five maps empty. -/
def initialState : ConverterState := ⟨[], [], [], [], []⟩

/-- Source `reset()`: clears all five maps, from any state. -/
def resetConverter (_ : ConverterState) : ConverterState := initialState

/-- Canonical events are flat JS objects with a `type` discriminator. -/
abbrev Event := Obj

/-- The legacy `codex/event/*` dispatch on the inner `msg.type`, mirroring
the source's block of early-returning `if (msgType === '…')` arms.  `msg`
is the already-unwrapped record and `msgType` the non-empty type string. -/
def codexByType (st : ConverterState) (msg : Value) (msgType : String) :
    List Event × ConverterState :=
  if msgType = "thread_started" then
    match asString (alt (msg.getField "thread_id") (msg.getField "threadId")) with
    | some threadId => ([[("type", .vStr "thread_started"), ("thread_id", .vStr threadId)]], st)
    | none => ([], st)
  else if msgType = "task_started" then
    let turnId := asString (alt (msg.getField "turn_id") (msg.getField "turnId"))
    let contextWindow := asNumber (alt (msg.getField "model_context_window")
      (msg.getField "modelContextWindow"))
    let collabMode := asString (alt (msg.getField "collaboration_mode_kind")
      (msg.getField "collaborationModeKind"))
    let ev := addStrTruthy [("type", .vStr "task_started")] "turn_id" turnId
    let ev := addNumTruthy ev "model_context_window" contextWindow
    let ev := addStrTruthy ev "collaboration_mode_kind" collabMode
    ([ev], st)
  else if msgType = "task_complete" then
    let turnId := asString (alt (msg.getField "turn_id") (msg.getField "turnId"))
    ([addStrTruthy [("type", .vStr "task_complete")] "turn_id" turnId], st)
  else if msgType = "task_failed" then
    let turnId := asString (alt (msg.getField "turn_id") (msg.getField "turnId"))
    let error := asString (alt (msg.getField "error") (msg.getField "message"))
    ([addStrTruthy (addStrTruthy [("type", .vStr "task_failed")] "turn_id" turnId)
        "error" error], st)
  else if msgType = "turn_aborted" then
    let turnId := asString (alt (msg.getField "turn_id") (msg.getField "turnId"))
    ([addStrTruthy [("type", .vStr "turn_aborted")] "turn_id" turnId], st)
  else if msgType = "error" then
    let rawMessage := asString (msg.getField "message")
    let errorMessage := rawMessage.map unwrapDetail
    let errorInfo := asString (alt (msg.getField "codex_error_info")
      (msg.getField "codexErrorInfo"))
    (match errorMessage with
     | some em =>
       if em = "" then ([], st)
       else
         ([addStrTruthy [("type", .vStr "task_failed"), ("error", .vStr em)]
             "codex_error_info" errorInfo], st)
     | none => ([], st))
  else if msgType = "agent_message" then
    (match asString (msg.getField "message") with
     | some message => ([[("type", .vStr "agent_message"), ("message", .vStr message)]], st)
     | none => ([], st))
  else if msgType = "agent_reasoning" then
    (match asString (msg.getField "text") with
     | some text => ([[("type", .vStr "agent_reasoning"), ("text", .vStr text)]], st)
     | none => ([], st))
  else if msgType = "agent_reasoning_delta" then
    (match asString (msg.getField "delta") with
     | some delta => ([[("type", .vStr "agent_reasoning_delta"), ("delta", .vStr delta)]], st)
     | none => ([], st))
  else if msgType = "agent_reasoning_section_break" then
    ([[("type", .vStr "agent_reasoning_section_break")]], st)
  else if msgType = "user_message" then
    ([], st)
  else if msgType = "exec_command_begin" then
    (match asString (alt (msg.getField "call_id") (msg.getField "callId")) with
     | some callId =>
       let command := extractCommand (alt (msg.getField "command") (msg.getField "cmd"))
       let cwd := asString (msg.getField "cwd")
       let autoApproved := asBoolean (alt (msg.getField "auto_approved")
         (msg.getField "autoApproved"))
       let meta := addOptBool (addStrTruthy (addStrTruthy [] "command" command) "cwd" cwd)
         "auto_approved" autoApproved
       ([spread [("type", .vStr "exec_command_begin"), ("call_id", .vStr callId)] meta],
        { st with commandMeta := mapSet st.commandMeta callId meta })
     | none => ([], st))
  else if msgType = "exec_command_end" then
    (match asString (alt (msg.getField "call_id") (msg.getField "callId")) with
     | some callId =>
       let meta := (mapGet st.commandMeta callId).getD []
       let output := asString (alt (msg.getField "output") (msg.getField "stdout"))
       let stderr := asString (msg.getField "stderr")
       let error := asString (msg.getField "error")
       let exitCode := asNumber (alt (msg.getField "exit_code") (msg.getField "exitCode"))
       let ev := spread [("type", .vStr "exec_command_end"), ("call_id", .vStr callId)] meta
       let ev := addStrTruthy ev "output" output
       let ev := addStrTruthy ev "stderr" stderr
       let ev := addStrTruthy ev "error" error
       let ev := addOptNum ev "exit_code" exitCode
       ([ev], { st with commandMeta := mapDel st.commandMeta callId,
                        commandOutputBuffers := mapDel st.commandOutputBuffers callId })
     | none => ([], st))
  else if msgType = "exec_approval_request" then
    (match asString (alt (msg.getField "call_id") (msg.getField "callId")) with
     | some callId =>
       ([spread [("type", .vStr "exec_approval_request"), ("call_id", .vStr callId)]
           (fieldsOf msg)], st)
     | none => ([], st))
  else if msgType = "patch_apply_begin" then
    (match asString (alt (msg.getField "call_id") (msg.getField "callId")) with
     | some callId =>
       let changes := extractChanges (msg.getField "changes")
       let autoApproved := asBoolean (alt (msg.getField "auto_approved")
         (msg.getField "autoApproved"))
       let meta := addOptBool (addOptVal [] "changes" changes) "auto_approved" autoApproved
       ([spread [("type", .vStr "patch_apply_begin"), ("call_id", .vStr callId)] meta],
        { st with fileChangeMeta := mapSet st.fileChangeMeta callId meta })
     | none => ([], st))
  else if msgType = "patch_apply_end" then
    (match asString (alt (msg.getField "call_id") (msg.getField "callId")) with
     | some callId =>
       let meta := (mapGet st.fileChangeMeta callId).getD []
       let stdout := asString (alt (msg.getField "stdout") (msg.getField "output"))
       let stderr := asString (msg.getField "stderr")
       let success := asBoolean (alt (msg.getField "success")
         (alt (msg.getField "ok") (msg.getField "applied")))
       let ev := spread [("type", .vStr "patch_apply_end"), ("call_id", .vStr callId)] meta
       let ev := addStrTruthy ev "stdout" stdout
       let ev := addStrTruthy ev "stderr" stderr
       let ev := setKey ev "success" (.vBool (success.getD false))
       ([ev], { st with fileChangeMeta := mapDel st.fileChangeMeta callId })
     | none => ([], st))
  else if msgType = "turn_diff" then
    (match asString (alt (msg.getField "unified_diff")
        (alt (msg.getField "unifiedDiff") (msg.getField "diff"))) with
     | some diff => ([[("type", .vStr "turn_diff"), ("unified_diff", .vStr diff)]], st)
     | none => ([], st))
  else if msgType = "token_count" then
    ([spread [("type", .vStr "token_count")] (fieldsOf msg)], st)
  else if msgType = "mcp_startup_update" ∨ msgType = "mcp_startup_complete" ∨
      msgType = "item_started" ∨ msgType = "item_completed" then
    ([], st)
  else
    ([], st)

/-- The item/started · item/completed handling for recognized item types
(source lines following the `item/started || item/completed` guard).
`method` is one of those two strings; `paramsRecord` the params record. -/
def handleItemEvent (st : ConverterState) (method : String) (paramsRecord : Value) :
    List Event × ConverterState :=
  let item := extractItem paramsRecord
  let itemTypeO := normalizeItemType (alt (item.getField "type")
    (alt (item.getField "itemType") (item.getField "kind")))
  let itemIdO := match extractItemId paramsRecord with
    | some i => some i
    | none => asString (alt (item.getField "id")
        (alt (item.getField "itemId") (item.getField "item_id")))
  match itemTypeO, itemIdO with
  | some itemType, some itemId =>
    if itemType = "agentmessage" then
      if method = "item/completed" then
        let text := match asString (alt (item.getField "text")
            (alt (item.getField "message") (item.getField "content"))) with
          | some t => some t
          | none => mapGet st.agentMessageBuffers itemId
        let events := match text with
          | some t => if t = "" then [] else [[("type", Value.vStr "agent_message"), ("message", Value.vStr t)]]
          | none => []
        (events, { st with agentMessageBuffers := mapDel st.agentMessageBuffers itemId })
      else ([], st)
    else if itemType = "reasoning" then
      if method = "item/completed" then
        let text := match asString (alt (item.getField "text")
            (alt (item.getField "message") (item.getField "content"))) with
          | some t => some t
          | none => mapGet st.reasoningBuffers itemId
        let events := match text with
          | some t => if t = "" then [] else [[("type", Value.vStr "agent_reasoning"), ("text", Value.vStr t)]]
          | none => []
        (events, { st with reasoningBuffers := mapDel st.reasoningBuffers itemId })
      else ([], st)
    else if itemType = "commandexecution" then
      if method = "item/started" then
        let command := extractCommand (alt (item.getField "command")
          (alt (item.getField "cmd") (item.getField "args")))
        let cwd := asString (alt (item.getField "cwd")
          (alt (item.getField "workingDirectory") (item.getField "working_directory")))
        let autoApproved := asBoolean (alt (item.getField "autoApproved")
          (item.getField "auto_approved"))
        let meta := addOptBool (addStrTruthy (addStrTruthy [] "command" command) "cwd" cwd)
          "auto_approved" autoApproved
        ([spread [("type", Value.vStr "exec_command_begin"), ("call_id", Value.vStr itemId)] meta],
         { st with commandMeta := mapSet st.commandMeta itemId meta })
      else if method = "item/completed" then
        let meta := (mapGet st.commandMeta itemId).getD []
        let output := match asString (alt (item.getField "output")
            (alt (item.getField "result") (item.getField "stdout"))) with
          | some o => some o
          | none => mapGet st.commandOutputBuffers itemId
        let stderr := asString (item.getField "stderr")
        let error := asString (item.getField "error")
        let exitCode := asNumber (alt (item.getField "exitCode")
          (alt (item.getField "exit_code") (item.getField "exitcode")))
        let status := asString (item.getField "status")
        let ev := spread [("type", Value.vStr "exec_command_end"), ("call_id", Value.vStr itemId)] meta
        let ev := addStrTruthy ev "output" output
        let ev := addStrTruthy ev "stderr" stderr
        let ev := addStrTruthy ev "error" error
        let ev := addOptNum ev "exit_code" exitCode
        let ev := addStrTruthy ev "status" status
        ([ev], { st with commandMeta := mapDel st.commandMeta itemId,
                         commandOutputBuffers := mapDel st.commandOutputBuffers itemId })
      else ([], st)
    else if itemType = "filechange" then
      if method = "item/started" then
        let changes := extractChanges (alt (item.getField "changes")
          (alt (item.getField "change") (item.getField "diff")))
        let autoApproved := asBoolean (alt (item.getField "autoApproved")
          (item.getField "auto_approved"))
        let meta := addOptBool (addOptVal [] "changes" changes) "auto_approved" autoApproved
        ([spread [("type", Value.vStr "patch_apply_begin"), ("call_id", Value.vStr itemId)] meta],
         { st with fileChangeMeta := mapSet st.fileChangeMeta itemId meta })
      else if method = "item/completed" then
        let meta := (mapGet st.fileChangeMeta itemId).getD []
        let stdout := asString (alt (item.getField "stdout") (item.getField "output"))
        let stderr := asString (item.getField "stderr")
        let statusIsCompleted : Bool := match item.getField "status" with
          | .vStr s => s == "completed"
          | _ => false
        let success := asBoolean (alt (item.getField "success")
          (alt (item.getField "ok")
            (alt (item.getField "applied") (.vBool statusIsCompleted))))
        let ev := spread [("type", Value.vStr "patch_apply_end"), ("call_id", Value.vStr itemId)] meta
        let ev := addStrTruthy ev "stdout" stdout
        let ev := addStrTruthy ev "stderr" stderr
        let ev := setKey ev "success" (Value.vBool (success.getD false))
        ([ev], { st with fileChangeMeta := mapDel st.fileChangeMeta itemId })
      else ([], st)
    else ([], st)
  | _, _ => ([], st)

/-- Source `handleNotification(method, params)`: returns the list of
canonical events pushed and the successor state (the source mutates
`this`; here the state is threaded explicitly). -/
def handleNotification (st : ConverterState) (method : String) (params : Value) :
    List Event × ConverterState :=
  let paramsRecord := (asRecord params).getD (Value.vObj [])
  if strStartsWith method "codex/event/" then
    match asRecord (paramsRecord.getField "msg") with
    | none => ([], st)
    | some msg =>
      match asString (msg.getField "type") with
      | none => ([], st)
      | some msgType => codexByType st msg msgType
  else if method = "thread/started" ∨ method = "thread/resumed" then
    let thread := (asRecord (paramsRecord.getField "thread")).getD paramsRecord
    (match asString (alt (thread.getField "threadId")
        (alt (thread.getField "thread_id") (thread.getField "id"))) with
     | some threadId => ([[("type", .vStr "thread_started"), ("thread_id", .vStr threadId)]], st)
     | none => ([], st))
  else if method = "turn/started" then
    let turn := (asRecord (paramsRecord.getField "turn")).getD paramsRecord
    let turnId := asString (alt (turn.getField "turnId")
      (alt (turn.getField "turn_id") (turn.getField "id")))
    ([addStrTruthy [("type", .vStr "task_started")] "turn_id" turnId], st)
  else if method = "turn/completed" then
    let turn := (asRecord (paramsRecord.getField "turn")).getD paramsRecord
    let statusRaw := asString (alt (paramsRecord.getField "status") (turn.getField "status"))
    let status := statusRaw.map strToLower
    let turnId := asString (alt (turn.getField "turnId")
      (alt (turn.getField "turn_id") (turn.getField "id")))
    let errorMessage := asString (alt (paramsRecord.getField "error")
      (alt (paramsRecord.getField "message") (paramsRecord.getField "reason")))
    if status = some "interrupted" ∨ status = some "cancelled" ∨ status = some "canceled" then
      ([addStrTruthy [("type", .vStr "turn_aborted")] "turn_id" turnId], st)
    else if status = some "failed" ∨ status = some "error" then
      ([addStrTruthy (addStrTruthy [("type", .vStr "task_failed")] "turn_id" turnId)
          "error" errorMessage], st)
    else
      ([addStrTruthy [("type", .vStr "task_complete")] "turn_id" turnId], st)
  else if method = "turn/diff/updated" then
    (match asString (alt (paramsRecord.getField "diff")
        (alt (paramsRecord.getField "unified_diff") (paramsRecord.getField "unifiedDiff"))) with
     | some diff => ([[("type", .vStr "turn_diff"), ("unified_diff", .vStr diff)]], st)
     | none => ([], st))
  else if method = "thread/tokenUsage/updated" then
    let info := (asRecord (alt (paramsRecord.getField "tokenUsage")
      (alt (paramsRecord.getField "token_usage") paramsRecord))).getD (.vObj [])
    ([[("type", .vStr "token_count"), ("info", info)]], st)
  else if method = "error" then
    let willRetry := (asBoolean (alt (paramsRecord.getField "will_retry")
      (paramsRecord.getField "willRetry"))).getD false
    if willRetry then ([], st)
    else
      let message := match asString (paramsRecord.getField "message") with
        | some m => some m
        | none => asString (((asRecord (paramsRecord.getField "error")).getD .vNull).getField "message")
      match message with
      | some m => ([[("type", .vStr "task_failed"), ("error", .vStr m)]], st)
      | none => ([], st)
  else if method = "item/agentMessage/delta" then
    let itemId := extractItemId paramsRecord
    let delta := asString (alt (paramsRecord.getField "delta")
      (alt (paramsRecord.getField "text") (paramsRecord.getField "message")))
    (match itemId, delta with
     | some i, some d =>
       let prev := (mapGet st.agentMessageBuffers i).getD ""
       ([], { st with agentMessageBuffers := mapSet st.agentMessageBuffers i (prev ++ d) })
     | _, _ => ([], st))
  else if method = "item/reasoning/textDelta" then
    let itemId := (extractItemId paramsRecord).getD "reasoning"
    let delta := asString (alt (paramsRecord.getField "delta")
      (alt (paramsRecord.getField "text") (paramsRecord.getField "message")))
    (match delta with
     | some d =>
       let prev := (mapGet st.reasoningBuffers itemId).getD ""
       ([[("type", .vStr "agent_reasoning_delta"), ("delta", .vStr d)]],
        { st with reasoningBuffers := mapSet st.reasoningBuffers itemId (prev ++ d) })
     | none => ([], st))
  else if method = "item/reasoning/summaryPartAdded" then
    ([[("type", .vStr "agent_reasoning_section_break")]], st)
  else if method = "item/commandExecution/outputDelta" then
    let itemId := extractItemId paramsRecord
    let delta := asString (alt (paramsRecord.getField "delta")
      (alt (paramsRecord.getField "text")
        (alt (paramsRecord.getField "output") (paramsRecord.getField "stdout"))))
    (match itemId, delta with
     | some i, some d =>
       let prev := (mapGet st.commandOutputBuffers i).getD ""
       ([], { st with commandOutputBuffers := mapSet st.commandOutputBuffers i (prev ++ d) })
     | _, _ => ([], st))
  else if method = "item/started" ∨ method = "item/completed" then
    handleItemEvent st method paramsRecord
  else
    ([], st)

/-! ### Basic lemmas about the map and object operations -/

theorem getKey_setKey_self (o : Obj) (k : String) (v : Value) :
    getKey (setKey o k v) k = some v := by
  induction o with
  | nil => simp [setKey, getKey]
  | cons p rest ih =>
    obtain ⟨k', v'⟩ := p
    by_cases h : k' = k
    · simp [setKey, getKey, h]
    · simp [setKey, getKey, h, ih]

theorem getKey_setKey_ne (o : Obj) (k k2 : String) (v : Value) (h : k2 ≠ k) :
    getKey (setKey o k v) k2 = getKey o k2 := by
  induction o with
  | nil => simp [setKey, getKey, Ne.symm h]
  | cons p rest ih =>
    obtain ⟨k', v'⟩ := p
    by_cases hk : k' = k
    · subst hk
      simp [setKey, getKey, Ne.symm h]
    · by_cases hk2 : k' = k2
      · subst hk2
        simp [setKey, getKey, hk]
      · simp [setKey, getKey, hk, hk2, ih]

theorem getKey_addStrTruthy_ne (o : Obj) (k k2 : String) (v : Option String) (h : k2 ≠ k) :
    getKey (addStrTruthy o k v) k2 = getKey o k2 := by
  cases v with
  | none => rfl
  | some s =>
    by_cases hs : s = ""
    · simp [addStrTruthy, hs]
    · simp [addStrTruthy, hs, getKey_setKey_ne o k k2 _ h]

theorem mapGet_mapSet_self {α : Type} (m : List (String × α)) (k : String) (v : α) :
    mapGet (mapSet m k v) k = some v := by
  induction m with
  | nil => simp [mapSet, mapGet]
  | cons p rest ih =>
    obtain ⟨k', v'⟩ := p
    by_cases h : k' = k
    · simp [mapSet, mapGet, h]
    · simp [mapSet, mapGet, h, ih]

theorem mapGet_mapDel_self {α : Type} (m : List (String × α)) (k : String) :
    mapGet (mapDel m k) k = none := by
  induction m with
  | nil => simp [mapDel, mapGet]
  | cons p rest ih =>
    obtain ⟨k', v'⟩ := p
    by_cases h : k' = k
    · simpa [mapDel, h] using ih
    · simpa [mapDel, mapGet, h] using ih

theorem asRecord_vObj (f : Obj) : asRecord (Value.vObj f) = some (Value.vObj f) := rfl

/-! Branch-selection facts about the concrete method and item-type strings
(definitional, but stated once so `simp` can use them). -/

theorem swT_agent_message : strStartsWith "codex/event/agent_message" "codex/event/" = true := rfl

theorem swT_agent_reasoning : strStartsWith "codex/event/agent_reasoning" "codex/event/" = true := rfl

theorem swT_error : strStartsWith "codex/event/error" "codex/event/" = true := rfl

theorem swT_exec_begin : strStartsWith "codex/event/exec_command_begin" "codex/event/" = true := rfl

theorem swT_exec_end : strStartsWith "codex/event/exec_command_end" "codex/event/" = true := rfl

theorem swT_patch_begin : strStartsWith "codex/event/patch_apply_begin" "codex/event/" = true := rfl

theorem swT_patch_end : strStartsWith "codex/event/patch_apply_end" "codex/event/" = true := rfl

theorem swT_token_count : strStartsWith "codex/event/token_count" "codex/event/" = true := rfl

theorem swT_thread_started : strStartsWith "codex/event/thread_started" "codex/event/" = true := rfl

theorem swT_task_started : strStartsWith "codex/event/task_started" "codex/event/" = true := rfl

theorem swT_task_complete : strStartsWith "codex/event/task_complete" "codex/event/" = true := rfl

theorem swT_task_failed : strStartsWith "codex/event/task_failed" "codex/event/" = true := rfl

theorem swT_turn_aborted : strStartsWith "codex/event/turn_aborted" "codex/event/" = true := rfl

theorem swT_turn_diff : strStartsWith "codex/event/turn_diff" "codex/event/" = true := rfl

theorem swT_reasoning_delta :
    strStartsWith "codex/event/agent_reasoning_delta" "codex/event/" = true := rfl

theorem swT_section_break :
    strStartsWith "codex/event/agent_reasoning_section_break" "codex/event/" = true := rfl

theorem swT_approval : strStartsWith "codex/event/exec_approval_request" "codex/event/" = true := rfl

theorem swF_thread_started : strStartsWith "thread/started" "codex/event/" = false := rfl

theorem swF_turn_started : strStartsWith "turn/started" "codex/event/" = false := rfl

theorem swF_turn_completed : strStartsWith "turn/completed" "codex/event/" = false := rfl

theorem swF_diff_updated : strStartsWith "turn/diff/updated" "codex/event/" = false := rfl

theorem swF_token_usage : strStartsWith "thread/tokenUsage/updated" "codex/event/" = false := rfl

theorem swF_error : strStartsWith "error" "codex/event/" = false := rfl

theorem swF_msg_delta : strStartsWith "item/agentMessage/delta" "codex/event/" = false := rfl

theorem swF_text_delta : strStartsWith "item/reasoning/textDelta" "codex/event/" = false := rfl

theorem swF_summary_part : strStartsWith "item/reasoning/summaryPartAdded" "codex/event/" = false := rfl

theorem swF_output_delta :
    strStartsWith "item/commandExecution/outputDelta" "codex/event/" = false := rfl

theorem swF_item_started : strStartsWith "item/started" "codex/event/" = false := rfl

theorem swF_item_completed : strStartsWith "item/completed" "codex/event/" = false := rfl

theorem nit_agentMessage : normalizeItemType (Value.vStr "agentMessage") = some "agentmessage" := rfl

theorem nit_reasoning : normalizeItemType (Value.vStr "reasoning") = some "reasoning" := rfl

theorem nit_commandExecution :
    normalizeItemType (Value.vStr "commandExecution") = some "commandexecution" := rfl

theorem nit_fileChange : normalizeItemType (Value.vStr "fileChange") = some "filechange" := rfl

/-! ### Named field extractors of the `turn/completed` branch
(the same expressions the branch computes, so claim statements can refer
to the extracted status and turn id). -/

/-- The raw status string a `turn/completed` params record yields (before
the branch lower-cases it). -/
def turnCompletedStatusRaw (pr : Value) : Option String :=
  let turn := (asRecord (pr.getField "turn")).getD pr
  asString (alt (pr.getField "status") (turn.getField "status"))

/-- The turn id a `turn/completed` params record yields. -/
def turnCompletedTurnId (pr : Value) : Option String :=
  let turn := (asRecord (pr.getField "turn")).getD pr
  asString (alt (turn.getField "turnId") (alt (turn.getField "turn_id") (turn.getField "id")))

/-- Claim C5: a `turn/completed` notification whose status lower-cases to
`interrupted`, `cancelled` or `canceled` produces exactly one event, a
`turn_aborted` carrying the turn id when one is present — in particular no
`task_complete` and no `task_failed` — and leaves the state unchanged. -/
theorem turn_completed_cancelled_aborts (st : ConverterState) (pr : Obj) (raw c : String)
    (hraw : turnCompletedStatusRaw (Value.vObj pr) = some raw)
    (hlow : strToLower raw = c)
    (hmem : c = "interrupted" ∨ c = "cancelled" ∨ c = "canceled") :
    handleNotification st "turn/completed" (Value.vObj pr) =
      ([addStrTruthy [("type", Value.vStr "turn_aborted")] "turn_id"
          (turnCompletedTurnId (Value.vObj pr))], st) ∧
    getKey (addStrTruthy [("type", Value.vStr "turn_aborted")] "turn_id"
        (turnCompletedTurnId (Value.vObj pr))) "type" = some (Value.vStr "turn_aborted") := by
  refine ⟨?_, ?_⟩
  · subst hlow
    rcases hmem with h | h | h <;>
      (simp only [turnCompletedStatusRaw] at hraw
       simp [handleNotification, turnCompletedTurnId, asRecord_vObj,
         show strStartsWith "turn/completed" "codex/event/" = false from rfl, hraw, h])
  · exact getKey_addStrTruthy_ne _ _ _ _ (by decide)

/-- Witness for C5 at a concrete input: status `CANCELLED` (case-insensitive
match), turn id `t1`. -/
theorem turn_completed_cancelled_aborts_witness :
    turnCompletedStatusRaw (Value.vObj [("status", Value.vStr "CANCELLED"),
        ("turn", Value.vObj [("id", Value.vStr "t1")])]) = some "CANCELLED" ∧
    strToLower "CANCELLED" = "cancelled" ∧
    handleNotification initialState "turn/completed"
        (Value.vObj [("status", Value.vStr "CANCELLED"),
          ("turn", Value.vObj [("id", Value.vStr "t1")])]) =
      ([addStrTruthy [("type", Value.vStr "turn_aborted")] "turn_id"
          (turnCompletedTurnId (Value.vObj [("status", Value.vStr "CANCELLED"),
            ("turn", Value.vObj [("id", Value.vStr "t1")])]))], initialState) ∧
    getKey (addStrTruthy [("type", Value.vStr "turn_aborted")] "turn_id"
        (turnCompletedTurnId (Value.vObj [("status", Value.vStr "CANCELLED"),
          ("turn", Value.vObj [("id", Value.vStr "t1")])]))) "type" =
      some (Value.vStr "turn_aborted") := by
  refine ⟨rfl, rfl, ?_⟩
  exact turn_completed_cancelled_aborts initialState
    [("status", Value.vStr "CANCELLED"), ("turn", Value.vObj [("id", Value.vStr "t1")])]
    "CANCELLED" "cancelled" rfl rfl (Or.inr (Or.inl rfl))

/-! ### Recognized notification identifiers (claim C4) -/

/-- The inner `msg.type` of a notification's params, as extracted by the
`codex/event/*` branch. -/
def innerMsgType (params : Value) : Option String :=
  match asRecord (((asRecord params).getD (Value.vObj [])).getField "msg") with
  | some msg => asString (msg.getField "type")
  | none => none

/-- The inner msg types the legacy `codex/event/*` branch dispatches on
(including the explicitly ignored informational ones). -/
def legacyMsgTypes : List String :=
  ["thread_started", "task_started", "task_complete", "task_failed", "turn_aborted",
   "error", "agent_message", "agent_reasoning", "agent_reasoning_delta",
   "agent_reasoning_section_break", "user_message", "exec_command_begin",
   "exec_command_end", "exec_approval_request", "patch_apply_begin",
   "patch_apply_end", "turn_diff", "token_count", "mcp_startup_update",
   "mcp_startup_complete", "item_started", "item_completed"]

/-- The structured method names the converter dispatches on. -/
def structuredMethods : List String :=
  ["thread/started", "thread/resumed", "turn/started", "turn/completed",
   "turn/diff/updated", "thread/tokenUsage/updated", "error",
   "item/agentMessage/delta", "item/reasoning/textDelta",
   "item/reasoning/summaryPartAdded", "item/commandExecution/outputDelta",
   "item/started", "item/completed"]

/-- Claim C4: a notification whose method (or, for `codex/event/*`
notifications, whose inner msg type) is unrecognized produces no events
and leaves the state exactly unchanged (the embedding is total, so no
exception can be raised either). -/
theorem unrecognized_notification_is_noop (st : ConverterState) (method : String) (params : Value)
    (hCodex : strStartsWith method "codex/event/" = true →
      ∀ t, innerMsgType params = some t → t ∉ legacyMsgTypes)
    (hPlain : strStartsWith method "codex/event/" = false → method ∉ structuredMethods) :
    handleNotification st method params = ([], st) := by
  unfold handleNotification
  cases hb : strStartsWith method "codex/event/" with
  | true =>
    simp only [hb, if_true]
    cases hm : asRecord (((asRecord params).getD (Value.vObj [])).getField "msg") with
    | none => rfl
    | some msg =>
      cases ht : asString (msg.getField "type") with
      | none => simp [ht]
      | some t =>
        have hnot := hCodex hb t (by simp [innerMsgType, hm, ht])
        simp only [ht]
        simp only [legacyMsgTypes, List.mem_cons, List.mem_singleton, not_or,
          List.not_mem_nil] at hnot
        obtain ⟨h1, h2, h3, h4, h5, h6, h7, h8, h9, h10, h11, h12, h13, h14, h15,
          h16, h17, h18, h19, h20, h21, h22⟩ := hnot
        simp [codexByType, h1, h2, h3, h4, h5, h6, h7, h8, h9, h10, h11, h12, h13,
          h14, h15, h16, h17, h18, h19, h20, h21, h22]
  | false =>
    have hn := hPlain hb
    simp only [structuredMethods, List.mem_cons, List.mem_singleton, not_or,
      List.not_mem_nil] at hn
    obtain ⟨g1, g2, g3, g4, g5, g6, g7, g8, g9, g10, g11, g12, g13⟩ := hn
    simp [hb, g1, g2, g3, g4, g5, g6, g7, g8, g9, g10, g11, g12, g13]

/-- Witness for C4: an unrecognized method on a fresh converter. -/
theorem unrecognized_notification_is_noop_witness :
    handleNotification initialState "session/ping" (Value.vObj []) = ([], initialState) :=
  unrecognized_notification_is_noop initialState "session/ping" (Value.vObj [])
    (fun h => absurd h (by decide))
    (fun _ => by decide)

/-! ### Claim C8: event field names -/

/-- Claim C8 counterexample: both producers of `agent_message` events put
the text under the field named `message`, not `text` — the legacy
`agent_message` msg and the structured `item/completed` with inline text. -/
theorem agent_message_text_field_counterexample :
    (handleNotification initialState "codex/event/agent_message"
        (Value.vObj [("msg", Value.vObj [("type", Value.vStr "agent_message"),
          ("message", Value.vStr "hi")])])).1 =
      [[("type", Value.vStr "agent_message"), ("message", Value.vStr "hi")]] ∧
    getKey ((handleNotification initialState "codex/event/agent_message"
        (Value.vObj [("msg", Value.vObj [("type", Value.vStr "agent_message"),
          ("message", Value.vStr "hi")])])).1.headD []) "text" = none ∧
    (handleNotification initialState "item/completed"
        (Value.vObj [("item", Value.vObj [("type", Value.vStr "agentMessage"),
          ("id", Value.vStr "m1"), ("text", Value.vStr "hi")])])).1 =
      [[("type", Value.vStr "agent_message"), ("message", Value.vStr "hi")]] ∧
    getKey ((handleNotification initialState "item/completed"
        (Value.vObj [("item", Value.vObj [("type", Value.vStr "agentMessage"),
          ("id", Value.vStr "m1"), ("text", Value.vStr "hi")])])).1.headD []) "text" = none :=
  ⟨rfl, rfl, rfl, rfl⟩

/-- Claim C8 (amended): every emitted `agent_message` event is the flat
mapping `{type, message}` carrying its text under `message`, and every
`agent_reasoning` event is the flat mapping `{type, text}` carrying its
text under `text`, in both protocol shapes. -/
theorem message_and_reasoning_field_names (st : ConverterState) (m : String) (hm : m ≠ "") :
    handleNotification st "codex/event/agent_message"
        (Value.vObj [("msg", Value.vObj [("type", Value.vStr "agent_message"),
          ("message", Value.vStr m)])]) =
      ([[("type", Value.vStr "agent_message"), ("message", Value.vStr m)]], st) ∧
    (handleNotification st "item/completed"
        (Value.vObj [("item", Value.vObj [("type", Value.vStr "agentMessage"),
          ("id", Value.vStr "m1"), ("text", Value.vStr m)])])).1 =
      [[("type", Value.vStr "agent_message"), ("message", Value.vStr m)]] ∧
    handleNotification st "codex/event/agent_reasoning"
        (Value.vObj [("msg", Value.vObj [("type", Value.vStr "agent_reasoning"),
          ("text", Value.vStr m)])]) =
      ([[("type", Value.vStr "agent_reasoning"), ("text", Value.vStr m)]], st) ∧
    (handleNotification st "item/completed"
        (Value.vObj [("item", Value.vObj [("type", Value.vStr "reasoning"),
          ("id", Value.vStr "m1"), ("text", Value.vStr m)])])).1 =
      [[("type", Value.vStr "agent_reasoning"), ("text", Value.vStr m)]] := by
  refine ⟨?_, ?_, ?_, ?_⟩ <;>
    simp [handleNotification, codexByType, handleItemEvent, extractItem, extractItemId,
      alt, asString, Value.getField, getKey, asRecord_vObj, hm,
      swT_agent_message, swT_agent_reasoning, swF_item_completed,
      nit_agentMessage, nit_reasoning]

/-- Witness for the amended C8 at `m := "hi"`. -/
theorem message_and_reasoning_field_names_witness :
    (handleNotification initialState "codex/event/agent_message"
        (Value.vObj [("msg", Value.vObj [("type", Value.vStr "agent_message"),
          ("message", Value.vStr "hi")])]) =
      ([[("type", Value.vStr "agent_message"), ("message", Value.vStr "hi")]], initialState)) ∧
    (handleNotification initialState "codex/event/agent_reasoning"
        (Value.vObj [("msg", Value.vObj [("type", Value.vStr "agent_reasoning"),
          ("text", Value.vStr "hi")])]) =
      ([[("type", Value.vStr "agent_reasoning"), ("text", Value.vStr "hi")]], initialState)) := by
  have h := message_and_reasoning_field_names initialState "hi" (by decide)
  exact ⟨h.1, h.2.2.1⟩

/-! ### Claim C9: command joining -/

theorem stringPartsComp :
    ((fun v => match v with | Value.vStr s => some s | _ => none) ∘ Value.vStr) =
      fun s => some s := by
  funext s; rfl

theorem filterMapSomeId (ps : List String) :
    ps.filterMap (fun s => some s) = ps := by
  induction ps with
  | nil => rfl
  | cons p rest ih => simp [List.filterMap_cons, ih]

theorem stringPartsOfMap (ps : List String) :
    (ps.map Value.vStr).filterMap
      (fun v => match v with | Value.vStr s => some s | _ => none) = ps := by
  rw [List.filterMap_map, stringPartsComp, filterMapSomeId]

/-- Claim C9: a command given in array form is joined — the string parts,
single-space separated — both in `extractCommand` itself and in the
`exec_command_begin` metadata and event; a command given as a single
string passes through unchanged. -/
theorem command_array_joins (st : ConverterState) (c : String) (hc : c ≠ "")
    (ps : List String) (hps : ps ≠ []) (hj : String.intercalate " " ps ≠ "")
    (s : String) (hs : s ≠ "") :
    extractCommand (Value.vArr (ps.map Value.vStr)) = some (String.intercalate " " ps) ∧
    extractCommand (Value.vStr s) = some s ∧
    handleNotification st "codex/event/exec_command_begin"
        (Value.vObj [("msg", Value.vObj [("type", Value.vStr "exec_command_begin"),
          ("call_id", Value.vStr c), ("command", Value.vArr (ps.map Value.vStr))])]) =
      ([[("type", Value.vStr "exec_command_begin"), ("call_id", Value.vStr c),
         ("command", Value.vStr (String.intercalate " " ps))]],
       { st with commandMeta :=
           mapSet st.commandMeta c [("command", Value.vStr (String.intercalate " " ps))] }) ∧
    handleNotification st "codex/event/exec_command_begin"
        (Value.vObj [("msg", Value.vObj [("type", Value.vStr "exec_command_begin"),
          ("call_id", Value.vStr c), ("command", Value.vStr s)])]) =
      ([[("type", Value.vStr "exec_command_begin"), ("call_id", Value.vStr c),
         ("command", Value.vStr s)]],
       { st with commandMeta := mapSet st.commandMeta c [("command", Value.vStr s)] }) := by
  have hlen : 0 < ps.length := List.length_pos.mpr hps
  refine ⟨?_, rfl, ?_, ?_⟩
  · simp [extractCommand, stringPartsComp, filterMapSomeId, hlen]
  · simp [handleNotification, codexByType, extractCommand, stringPartsComp, filterMapSomeId, hlen,
      alt, asString, asBoolean, Value.getField, getKey, asRecord_vObj, spread, addStrTruthy,
      addOptBool, setKey, swT_exec_begin, hc, hj]
  · simp [handleNotification, codexByType, extractCommand, alt, asString, asBoolean,
      Value.getField, getKey, asRecord_vObj, spread, addStrTruthy, addOptBool,
      setKey, swT_exec_begin, hc, hs]

/-- Witness for C9 at `call id c1`, array `["ls", "-la"]`, string `pwd`. -/
theorem command_array_joins_witness :
    extractCommand (Value.vArr [Value.vStr "ls", Value.vStr "-la"]) = some "ls -la" ∧
    extractCommand (Value.vStr "pwd") = some "pwd" ∧
    handleNotification initialState "codex/event/exec_command_begin"
        (Value.vObj [("msg", Value.vObj [("type", Value.vStr "exec_command_begin"),
          ("call_id", Value.vStr "c1"),
          ("command", Value.vArr [Value.vStr "ls", Value.vStr "-la"])])]) =
      ([[("type", Value.vStr "exec_command_begin"), ("call_id", Value.vStr "c1"),
         ("command", Value.vStr "ls -la")]],
       { initialState with commandMeta := [("c1", [("command", Value.vStr "ls -la")])] }) := by
  have h := command_array_joins initialState "c1" (by decide) ["ls", "-la"] (by decide)
    (by decide) "pwd" (by decide)
  exact ⟨h.1, h.2.1, h.2.2.1⟩

/-! ### Claim C10: end/completed without a prior begin -/

/-- Claim C10 counterexample: a structured `item/completed` for a
`fileChange` item carrying no `success`/`ok`/`applied` boolean but with
`status: "completed"` emits `success: true`, not `false`. -/
theorem patch_end_status_completed_counterexample :
    getKey (Value.vObj [("type", Value.vStr "fileChange"), ("id", Value.vStr "p1"),
      ("status", Value.vStr "completed")] |> fieldsOf) "success" = none ∧
    getKey (Value.vObj [("type", Value.vStr "fileChange"), ("id", Value.vStr "p1"),
      ("status", Value.vStr "completed")] |> fieldsOf) "ok" = none ∧
    getKey (Value.vObj [("type", Value.vStr "fileChange"), ("id", Value.vStr "p1"),
      ("status", Value.vStr "completed")] |> fieldsOf) "applied" = none ∧
    (handleNotification initialState "item/completed"
        (Value.vObj [("item", Value.vObj [("type", Value.vStr "fileChange"),
          ("id", Value.vStr "p1"), ("status", Value.vStr "completed")])])).1 =
      [[("type", Value.vStr "patch_apply_end"), ("call_id", Value.vStr "p1"),
        ("success", Value.vBool true)]] :=
  ⟨rfl, rfl, rfl, rfl⟩

/-- Claim C10 (amended): an end/completed notification for a call id with
no stored begin metadata still emits exactly one end event carrying only
the notification's own fields; `patch_apply_end`'s `success` is `false`
unless the notification itself carries a `success`/`ok`/`applied` boolean
— or, in the structured shape, unless the item's `status` string equals
`"completed"`, in which case `success` is `true`. -/
theorem end_without_begin_emits (st : ConverterState) (c : String) (hc : c ≠ "")
    (hcm : mapGet st.commandMeta c = none)
    (hco : mapGet st.commandOutputBuffers c = none)
    (hfm : mapGet st.fileChangeMeta c = none) (s : String) :
    (handleNotification st "codex/event/exec_command_end"
        (Value.vObj [("msg", Value.vObj [("type", Value.vStr "exec_command_end"),
          ("call_id", Value.vStr c)])])).1 =
      [[("type", Value.vStr "exec_command_end"), ("call_id", Value.vStr c)]] ∧
    (handleNotification st "item/completed"
        (Value.vObj [("item", Value.vObj [("type", Value.vStr "commandExecution"),
          ("id", Value.vStr c)])])).1 =
      [[("type", Value.vStr "exec_command_end"), ("call_id", Value.vStr c)]] ∧
    (handleNotification st "codex/event/patch_apply_end"
        (Value.vObj [("msg", Value.vObj [("type", Value.vStr "patch_apply_end"),
          ("call_id", Value.vStr c)])])).1 =
      [[("type", Value.vStr "patch_apply_end"), ("call_id", Value.vStr c),
        ("success", Value.vBool false)]] ∧
    (handleNotification st "item/completed"
        (Value.vObj [("item", Value.vObj [("type", Value.vStr "fileChange"),
          ("id", Value.vStr c), ("status", Value.vStr s)])])).1 =
      [[("type", Value.vStr "patch_apply_end"), ("call_id", Value.vStr c),
        ("success", Value.vBool (s == "completed"))]] := by
  refine ⟨?_, ?_, ?_, ?_⟩ <;>
    simp [handleNotification, codexByType, handleItemEvent, extractItem, extractItemId,
      alt, asString, asBoolean, asNumber, Value.getField, getKey, asRecord_vObj,
      spread, addStrTruthy, addOptBool, addOptNum, setKey, hc, hcm, hco, hfm,
      swT_exec_end, swT_patch_end, swF_item_completed,
      nit_commandExecution, nit_fileChange]

/-- Witness for the amended C10 on a fresh converter, `call id c9`. -/
theorem end_without_begin_emits_witness :
    (handleNotification initialState "codex/event/exec_command_end"
        (Value.vObj [("msg", Value.vObj [("type", Value.vStr "exec_command_end"),
          ("call_id", Value.vStr "c9")])])).1 =
      [[("type", Value.vStr "exec_command_end"), ("call_id", Value.vStr "c9")]] ∧
    (handleNotification initialState "item/completed"
        (Value.vObj [("item", Value.vObj [("type", Value.vStr "fileChange"),
          ("id", Value.vStr "c9"), ("status", Value.vStr "failed")])])).1 =
      [[("type", Value.vStr "patch_apply_end"), ("call_id", Value.vStr "c9"),
        ("success", Value.vBool ("failed" == "completed"))]] := by
  have h := end_without_begin_emits initialState "c9" (by decide) rfl rfl rfl "failed"
  exact ⟨h.1, h.2.2.2⟩

/-! ### Claims C6 and C7: top-level error handling -/

/-- The `will_retry` flag extraction of the structured `error` branch. -/
def errorWillRetry (pr : Value) : Bool :=
  (asBoolean (alt (pr.getField "will_retry") (pr.getField "willRetry"))).getD false

/-- The message extraction of the structured `error` branch
(`message` field, else the `message` of a nested `error` record). -/
def errorMessageOf (pr : Value) : Option String :=
  match asString (pr.getField "message") with
  | some m => some m
  | none => asString (((asRecord (pr.getField "error")).getD .vNull).getField "message")

/-- Claim C6 counterexample: a legacy `codex/event/*` top-level error
marked `will_retry: true` is NOT suppressed — it yields a `task_failed` —
while the same data in the structured shape is suppressed. -/
theorem legacy_error_will_retry_counterexample :
    (handleNotification initialState "codex/event/error"
        (Value.vObj [("msg", Value.vObj [("type", Value.vStr "error"),
          ("message", Value.vStr "boom"), ("will_retry", Value.vBool true)])])).1 =
      [[("type", Value.vStr "task_failed"), ("error", Value.vStr "boom")]] ∧
    (handleNotification initialState "error"
        (Value.vObj [("message", Value.vStr "boom"),
          ("will_retry", Value.vBool true)])).1 = [] ∧
    (handleNotification initialState "codex/event/error"
        (Value.vObj [("msg", Value.vObj [("type", Value.vStr "error"),
          ("message", Value.vStr "boom"), ("will_retry", Value.vBool true)])])).1 ≠ [] := by
  refine ⟨rfl, rfl, ?_⟩
  exact List.cons_ne_nil _ _

/-- Claim C6 (amended): in the structured shape, an `error` notification
marked will-retry is suppressed entirely (no events, no state change) and
one not marked will-retry yields exactly one `task_failed` carrying the
extracted message; in the legacy shape the will-retry flag is ignored and
a `task_failed` (with detail-unwrapped message) is emitted whenever a
non-empty message is present. -/
theorem error_will_retry_policy (st : ConverterState) (pr : Obj) :
    (errorWillRetry (Value.vObj pr) = true →
      handleNotification st "error" (Value.vObj pr) = ([], st)) ∧
    (∀ m, errorWillRetry (Value.vObj pr) = false →
      errorMessageOf (Value.vObj pr) = some m →
      handleNotification st "error" (Value.vObj pr) =
        ([[("type", Value.vStr "task_failed"), ("error", Value.vStr m)]], st)) ∧
    (∀ raw w, raw ≠ "" → unwrapDetail raw ≠ "" →
      handleNotification st "codex/event/error"
          (Value.vObj [("msg", Value.vObj [("type", Value.vStr "error"),
            ("message", Value.vStr raw), ("will_retry", Value.vBool w)])]) =
        ([[("type", Value.vStr "task_failed"),
           ("error", Value.vStr (unwrapDetail raw))]], st)) := by
  refine ⟨?_, ?_, ?_⟩
  · intro hw
    simp only [errorWillRetry] at hw
    simp [handleNotification, swF_error, asRecord_vObj, hw]
  · intro m hw hm
    simp only [errorWillRetry] at hw
    simp only [errorMessageOf] at hm
    simp [handleNotification, swF_error, asRecord_vObj, hw, hm]
  · intro raw w hraw hd
    simp [handleNotification, codexByType, swT_error, asRecord_vObj,
      alt, asString, Value.getField, getKey, addStrTruthy, hraw, hd]

/-- Witness for the amended C6: retryable structured error suppressed,
non-retryable structured error surfaced, legacy error emitted despite the
flag. -/
theorem error_will_retry_policy_witness :
    handleNotification initialState "error"
        (Value.vObj [("message", Value.vStr "boom"), ("will_retry", Value.vBool true)]) =
      ([], initialState) ∧
    handleNotification initialState "error" (Value.vObj [("message", Value.vStr "boom")]) =
      ([[("type", Value.vStr "task_failed"), ("error", Value.vStr "boom")]], initialState) ∧
    handleNotification initialState "codex/event/error"
        (Value.vObj [("msg", Value.vObj [("type", Value.vStr "error"),
          ("message", Value.vStr "boom"), ("will_retry", Value.vBool true)])]) =
      ([[("type", Value.vStr "task_failed"),
         ("error", Value.vStr (unwrapDetail "boom"))]], initialState) :=
  ⟨(error_will_retry_policy initialState _).1 rfl,
   (error_will_retry_policy initialState _).2.1 "boom" rfl rfl,
   (error_will_retry_policy initialState []).2.2 "boom" true (by decide) (by decide)⟩

/-- Claim C7 counterexample: the structured `error` branch does not unwrap
a JSON `detail` field — the raw JSON string is used verbatim even though
it parses to an object with a string `detail`. -/
theorem structured_error_detail_counterexample :
    detailFromMessage "\x7b\"detail\":\"boom\"\x7d" = some "boom" ∧
    (handleNotification initialState "error"
        (Value.vObj [("message", Value.vStr "\x7b\"detail\":\"boom\"\x7d")])).1 =
      [[("type", Value.vStr "task_failed"),
        ("error", Value.vStr "\x7b\"detail\":\"boom\"\x7d")]] ∧
    ("\x7b\"detail\":\"boom\"\x7d" : String) ≠ "boom" :=
  ⟨rfl, rfl, by decide⟩

/-- Claim C7 (amended): only the legacy `codex/event/*` error branch
unwraps the message: when the message parses as JSON to an object with a
non-empty string `detail`, the emitted `task_failed` carries `detail`;
when parsing fails (or yields no string `detail`), the raw message is
used.  The structured `error` branch always uses the raw message. -/
theorem legacy_error_detail_unwrap (st : ConverterState) (raw : String) (hraw : raw ≠ "") :
    (∀ d, detailFromMessage raw = some d → d ≠ "" →
      handleNotification st "codex/event/error"
          (Value.vObj [("msg", Value.vObj [("type", Value.vStr "error"),
            ("message", Value.vStr raw)])]) =
        ([[("type", Value.vStr "task_failed"), ("error", Value.vStr d)]], st)) ∧
    (detailFromMessage raw = none →
      handleNotification st "codex/event/error"
          (Value.vObj [("msg", Value.vObj [("type", Value.vStr "error"),
            ("message", Value.vStr raw)])]) =
        ([[("type", Value.vStr "task_failed"), ("error", Value.vStr raw)]], st)) ∧
    (∀ m, errorWillRetry (Value.vObj [("message", Value.vStr raw)]) = false →
      errorMessageOf (Value.vObj [("message", Value.vStr raw)]) = some m →
      handleNotification st "error" (Value.vObj [("message", Value.vStr raw)]) =
        ([[("type", Value.vStr "task_failed"), ("error", Value.vStr m)]], st)) := by
  refine ⟨?_, ?_, ?_⟩
  · intro d hd hdne
    simp [handleNotification, codexByType, swT_error, asRecord_vObj,
      alt, asString, Value.getField, getKey, addStrTruthy, unwrapDetail, hraw, hd, hdne]
  · intro hd
    simp [handleNotification, codexByType, swT_error, asRecord_vObj,
      alt, asString, Value.getField, getKey, addStrTruthy, unwrapDetail, hraw, hd]
  · exact fun m hw hm => (error_will_retry_policy st _).2.1 m hw hm

/-- Witness for the amended C7: a JSON message is unwrapped to its
`detail`, a plain message passes through. -/
theorem legacy_error_detail_unwrap_witness :
    handleNotification initialState "codex/event/error"
        (Value.vObj [("msg", Value.vObj [("type", Value.vStr "error"),
          ("message", Value.vStr "\x7b\"detail\":\"boom\"\x7d")])]) =
      ([[("type", Value.vStr "task_failed"), ("error", Value.vStr "boom")]], initialState) ∧
    handleNotification initialState "codex/event/error"
        (Value.vObj [("msg", Value.vObj [("type", Value.vStr "error"),
          ("message", Value.vStr "plain")])]) =
      ([[("type", Value.vStr "task_failed"), ("error", Value.vStr "plain")]], initialState) :=
  ⟨(legacy_error_detail_unwrap initialState "\x7b\"detail\":\"boom\"\x7d" (by decide)).1
      "boom" rfl (by decide),
   (legacy_error_detail_unwrap initialState "plain" (by decide)).2.1 rfl⟩

/-! ### Claim C3: buffer/meta cleanup at terminal events and reset -/

/-- Claim C3 counterexample: after the terminal `agent_message` event for
item id `x`, `x` is still present in `reasoningBuffers` (populated by an
earlier reasoning delta under the same id), so the id is not absent from
all five maps — a terminal event only clears the maps of its own kind. -/
theorem terminal_leaves_other_maps_counterexample :
    (handleNotification
      ((handleNotification initialState "item/reasoning/textDelta"
        (Value.vObj [("itemId", Value.vStr "x"), ("delta", Value.vStr "r")])).2)
      "item/completed"
      (Value.vObj [("item", Value.vObj [("type", Value.vStr "agentMessage"),
        ("id", Value.vStr "x"), ("text", Value.vStr "hi")])])).1 =
      [[("type", Value.vStr "agent_message"), ("message", Value.vStr "hi")]] ∧
    mapGet (handleNotification
      ((handleNotification initialState "item/reasoning/textDelta"
        (Value.vObj [("itemId", Value.vStr "x"), ("delta", Value.vStr "r")])).2)
      "item/completed"
      (Value.vObj [("item", Value.vObj [("type", Value.vStr "agentMessage"),
        ("id", Value.vStr "x"), ("text", Value.vStr "hi")])])).2.reasoningBuffers "x" =
      some "r" :=
  ⟨rfl, rfl⟩

/-- Claim C3 (amended): after a terminal end/completed notification for a
call/item id, that id is absent from the maps backing that terminal's
kind (`agent_message` → `agentMessageBuffers`; `agent_reasoning` →
`reasoningBuffers`; `exec_command_end` → `commandMeta` and
`commandOutputBuffers`; `patch_apply_end` → `fileChangeMeta`), from any
prior state; and `reset()` empties all five maps unconditionally. -/
theorem terminal_event_clears_own_maps :
    (∀ st : ConverterState, resetConverter st = initialState) ∧
    (∀ (st : ConverterState) (c : String) (rest : Obj), c ≠ "" →
      mapGet ((handleNotification st "codex/event/exec_command_end"
        (Value.vObj [("msg", Value.vObj (("type", Value.vStr "exec_command_end") ::
          ("call_id", Value.vStr c) :: rest))])).2).commandMeta c = none ∧
      mapGet ((handleNotification st "codex/event/exec_command_end"
        (Value.vObj [("msg", Value.vObj (("type", Value.vStr "exec_command_end") ::
          ("call_id", Value.vStr c) :: rest))])).2).commandOutputBuffers c = none) ∧
    (∀ (st : ConverterState) (c : String) (rest : Obj), c ≠ "" →
      mapGet ((handleNotification st "codex/event/patch_apply_end"
        (Value.vObj [("msg", Value.vObj (("type", Value.vStr "patch_apply_end") ::
          ("call_id", Value.vStr c) :: rest))])).2).fileChangeMeta c = none) ∧
    (∀ (st : ConverterState) (i : String) (rest : Obj), i ≠ "" →
      mapGet ((handleNotification st "item/completed"
        (Value.vObj [("item", Value.vObj (("type", Value.vStr "agentMessage") ::
          ("id", Value.vStr i) :: rest))])).2).agentMessageBuffers i = none) ∧
    (∀ (st : ConverterState) (i : String) (rest : Obj), i ≠ "" →
      mapGet ((handleNotification st "item/completed"
        (Value.vObj [("item", Value.vObj (("type", Value.vStr "reasoning") ::
          ("id", Value.vStr i) :: rest))])).2).reasoningBuffers i = none) ∧
    (∀ (st : ConverterState) (i : String) (rest : Obj), i ≠ "" →
      mapGet ((handleNotification st "item/completed"
        (Value.vObj [("item", Value.vObj (("type", Value.vStr "commandExecution") ::
          ("id", Value.vStr i) :: rest))])).2).commandMeta i = none ∧
      mapGet ((handleNotification st "item/completed"
        (Value.vObj [("item", Value.vObj (("type", Value.vStr "commandExecution") ::
          ("id", Value.vStr i) :: rest))])).2).commandOutputBuffers i = none) ∧
    (∀ (st : ConverterState) (i : String) (rest : Obj), i ≠ "" →
      mapGet ((handleNotification st "item/completed"
        (Value.vObj [("item", Value.vObj (("type", Value.vStr "fileChange") ::
          ("id", Value.vStr i) :: rest))])).2).fileChangeMeta i = none) := by
  refine ⟨fun st => rfl, ?_, ?_, ?_, ?_, ?_, ?_⟩ <;>
    (intro st c rest hc
     simp [handleNotification, codexByType, handleItemEvent, extractItem, extractItemId,
       alt, asString, asBoolean, asNumber, Value.getField, getKey, asRecord_vObj,
       swT_exec_end, swT_patch_end, swF_item_completed,
       nit_agentMessage, nit_reasoning, nit_commandExecution, nit_fileChange,
       hc, mapGet_mapDel_self])

/-- Witness for the amended C3 on a fresh converter. -/
theorem terminal_event_clears_own_maps_witness :
    resetConverter initialState = initialState ∧
    mapGet ((handleNotification initialState "codex/event/exec_command_end"
      (Value.vObj [("msg", Value.vObj (("type", Value.vStr "exec_command_end") ::
        ("call_id", Value.vStr "c1") :: []))])).2).commandMeta "c1" = none ∧
    mapGet ((handleNotification initialState "item/completed"
      (Value.vObj [("item", Value.vObj (("type", Value.vStr "fileChange") ::
        ("id", Value.vStr "p1") :: []))])).2).fileChangeMeta "p1" = none :=
  ⟨terminal_event_clears_own_maps.1 initialState,
   (terminal_event_clears_own_maps.2.1 initialState "c1" [] (by decide)).1,
   terminal_event_clears_own_maps.2.2.2.2.2.2 initialState "p1" [] (by decide)⟩

/-! ### Claim C2: delta accumulation and flush at the terminal event -/

/-- The three delta-accumulating streams of the structured shape. -/
inductive DeltaKind where
  | message
  | reasoning
  | command

/-- The structured delta method for each kind. -/
def deltaMethodOf : DeltaKind → String
  | .message => "item/agentMessage/delta"
  | .reasoning => "item/reasoning/textDelta"
  | .command => "item/commandExecution/outputDelta"

/-- A delta notification's params: item id plus the delta text. -/
def deltaParams (i d : String) : Value :=
  Value.vObj [("itemId", Value.vStr i), ("delta", Value.vStr d)]

/-- The item type string of the terminal `item/completed` for each kind. -/
def completedItemType : DeltaKind → String
  | .message => "agentMessage"
  | .reasoning => "reasoning"
  | .command => "commandExecution"

/-- The terminal `item/completed` params carrying no inline text. -/
def completedParams (k : DeltaKind) (i : String) : Value :=
  Value.vObj [("item", Value.vObj [("type", Value.vStr (completedItemType k)),
    ("id", Value.vStr i)])]

/-- The buffer map each kind accumulates into. -/
def kindBuffer (k : DeltaKind) (st : ConverterState) : List (String × String) :=
  match k with
  | .message => st.agentMessageBuffers
  | .reasoning => st.reasoningBuffers
  | .command => st.commandOutputBuffers

/-- The event field carrying the flushed text for each kind. -/
def textKeyOf : DeltaKind → String
  | .message => "message"
  | .reasoning => "text"
  | .command => "output"

/-- Deliver a sequence of delta notifications for one item id. -/
def feedDeltas (k : DeltaKind) (i : String) (ds : List String) (st : ConverterState) :
    ConverterState :=
  ds.foldl (fun s d => (handleNotification s (deltaMethodOf k) (deltaParams i d)).2) st

/-- Concatenation of a list of strings in delivery order. -/
def concatAll : List String → String
  | [] => ""
  | s :: rest => s ++ concatAll rest

theorem strAppendNeEmpty (a b : String) (ha : a ≠ "") : a ++ b ≠ "" := by
  cases a with | mk l =>
  cases b with | mk r =>
  cases l with
  | nil => exact absurd rfl ha
  | cons c cs =>
    intro h
    have hdata := congrArg String.data h
    simp [String.data] at hdata

theorem concatAllNeEmpty (d : String) (rest : List String) (hd : d ≠ "") :
    concatAll (d :: rest) ≠ "" := by
  simp only [concatAll]
  exact strAppendNeEmpty d (concatAll rest) hd

/-- One delta appends to the kind's buffer under its item id. -/
theorem deltaStep (k : DeltaKind) (i d : String) (st : ConverterState)
    (hi : i ≠ "") (hd : d ≠ "") :
    kindBuffer k ((handleNotification st (deltaMethodOf k) (deltaParams i d)).2) =
      mapSet (kindBuffer k st) i ((mapGet (kindBuffer k st) i).getD "" ++ d) := by
  cases k <;>
    simp [handleNotification, deltaMethodOf, deltaParams, kindBuffer, extractItemId,
      alt, asString, Value.getField, getKey, asRecord_vObj,
      swF_msg_delta, swF_text_delta, swF_output_delta, hi, hd]

/-- Folding a non-empty list of non-empty deltas accumulates their
concatenation after any prior buffer content. -/
theorem feedDeltas_buffer (k : DeltaKind) (i : String) (hi : i ≠ "") :
    ∀ (ds : List String) (st : ConverterState), (∀ d ∈ ds, d ≠ "") → ds ≠ [] →
    mapGet (kindBuffer k (feedDeltas k i ds st)) i =
      some ((mapGet (kindBuffer k st) i).getD "" ++ concatAll ds) := by
  intro ds
  induction ds with
  | nil => intro st _ hne; exact absurd rfl hne
  | cons d rest ih =>
    intro st hne _
    have hd : d ≠ "" := hne d (List.mem_cons_self d rest)
    have hstep := deltaStep k i d st hi hd
    by_cases hrest : rest = []
    · subst hrest
      have hfold : feedDeltas k i [d] st =
          (handleNotification st (deltaMethodOf k) (deltaParams i d)).2 := rfl
      rw [hfold, hstep, mapGet_mapSet_self]
      simp [concatAll, String.append_empty]
    · have hfold : feedDeltas k i (d :: rest) st =
          feedDeltas k i rest ((handleNotification st (deltaMethodOf k) (deltaParams i d)).2) := rfl
      rw [hfold, ih _ (fun x hx => hne x (List.mem_cons_of_mem d hx)) hrest, hstep,
        mapGet_mapSet_self]
      simp [concatAll, String.append_assoc]

/-- Claim C2: for a sequence of (non-empty) deltas for one item id — agent
message, reasoning, or command output — followed by the terminal
`item/completed` for that id carrying no inline text, the terminal event
carries text equal to the concatenation of the deltas in delivery order;
and the spec's concrete scenario: begin for `c1` with command `ls`, three
output deltas `a`, `b`, `c`, then the end with no inline output yields an
end event with `call_id: c1`, `command: ls`, `output: abc` and leaves
`commandMeta` and `commandOutputBuffers` empty. -/
theorem delta_concat_flush :
    (∀ (k : DeltaKind) (i : String) (ds : List String) (st : ConverterState),
      i ≠ "" → ds ≠ [] → (∀ d ∈ ds, d ≠ "") →
      mapGet (kindBuffer k st) i = none →
      (handleNotification (feedDeltas k i ds st) "item/completed"
          (completedParams k i)).1.length = 1 ∧
      getKey ((handleNotification (feedDeltas k i ds st) "item/completed"
          (completedParams k i)).1.headD []) (textKeyOf k) =
        some (Value.vStr (concatAll ds))) ∧
    (let r1 := handleNotification initialState "item/started"
        (Value.vObj [("item", Value.vObj [("type", Value.vStr "commandExecution"),
          ("id", Value.vStr "c1"), ("command", Value.vStr "ls")])])
     let r2 := handleNotification r1.2 "item/commandExecution/outputDelta"
        (Value.vObj [("itemId", Value.vStr "c1"), ("delta", Value.vStr "a")])
     let r3 := handleNotification r2.2 "item/commandExecution/outputDelta"
        (Value.vObj [("itemId", Value.vStr "c1"), ("delta", Value.vStr "b")])
     let r4 := handleNotification r3.2 "item/commandExecution/outputDelta"
        (Value.vObj [("itemId", Value.vStr "c1"), ("delta", Value.vStr "c")])
     let r5 := handleNotification r4.2 "item/completed"
        (Value.vObj [("item", Value.vObj [("type", Value.vStr "commandExecution"),
          ("id", Value.vStr "c1")])])
     r1.1 = [[("type", Value.vStr "exec_command_begin"), ("call_id", Value.vStr "c1"),
              ("command", Value.vStr "ls")]] ∧
     r5.1 = [[("type", Value.vStr "exec_command_end"), ("call_id", Value.vStr "c1"),
              ("command", Value.vStr "ls"), ("output", Value.vStr "abc")]] ∧
     r5.2.commandMeta = [] ∧ r5.2.commandOutputBuffers = []) := by
  constructor
  · intro k i ds st hi hds hne hbuf
    obtain ⟨d, rest, rfl⟩ : ∃ d rest, ds = d :: rest := by
      cases ds with
      | nil => exact absurd rfl hds
      | cons d rest => exact ⟨d, rest, rfl⟩
    have hb := feedDeltas_buffer k i hi (d :: rest) st hne hds
    rw [hbuf] at hb
    have hconcat : concatAll (d :: rest) ≠ "" :=
      concatAllNeEmpty d rest (hne d (List.mem_cons_self d rest))
    rw [show (none : Option String).getD "" = "" from rfl, String.empty_append] at hb
    cases k <;>
      (simp only [kindBuffer] at hb
       constructor <;>
         simp [handleNotification, handleItemEvent, completedParams, completedItemType,
           textKeyOf, extractItem, extractItemId, alt, asString, asBoolean, asNumber,
           Value.getField, getKey, asRecord_vObj, swF_item_completed,
           nit_agentMessage, nit_reasoning, nit_commandExecution,
           addStrTruthy, addOptNum, setKey, getKey_setKey_self,
           hi, hb, hconcat])
  · exact ⟨rfl, rfl, rfl, rfl⟩

/-- Witness for C2 at `k := command`, `i := "c1"`, deltas `a b c`, fresh
converter. -/
theorem delta_concat_flush_witness :
    (handleNotification (feedDeltas DeltaKind.command "c1" ["a", "b", "c"] initialState)
        "item/completed" (completedParams DeltaKind.command "c1")).1.length = 1 ∧
    getKey ((handleNotification (feedDeltas DeltaKind.command "c1" ["a", "b", "c"] initialState)
        "item/completed" (completedParams DeltaKind.command "c1")).1.headD [])
      (textKeyOf DeltaKind.command) = some (Value.vStr (concatAll ["a", "b", "c"])) :=
  delta_concat_flush.1 DeltaKind.command "c1" ["a", "b", "c"] initialState
    (by decide) (by decide) (by intro d hd; fin_cases hd <;> decide) rfl

/-! ### Claim C1: protocol-shape transparency -/

/-- Abstract notification data expressible in both protocol shapes — the
refinement side of claim C1, following the spec's dispatch table and
wire-shape list (`turn_id`/`turnId` etc. are the per-shape aliases of the
same datum). -/
inductive NotifData where
  | threadStarted (t : String)
  | turnStarted (tid : Option String)
  | turnCompleted (tid : Option String)
  | turnAborted (tid : Option String)
  | turnFailed (tid : Option String) (err : Option String)
  | diffUpdated (u : String)
  | tokenCount (f : Obj)
  | agentMessageDone (i t : String)
  | reasoningDone (i t : String)
  | reasoningDelta (d : String)
  | sectionBreak
  | execBegin (c : String) (cmd : Option String) (cwd : Option String) (aa : Option Bool)
  | execEnd (c : String) (out errS errE : Option String) (exit : Option Int)
  | patchBegin (c : String) (chg : Option Value) (aa : Option Bool)
  | patchEnd (c : String) (so se : Option String) (succ : Option Bool)

/-- A present optional string is non-empty. -/
def okStr : Option String → Prop
  | some s => s ≠ ""
  | none => True

def optStrF (k : String) (v : Option String) : Obj :=
  match v with
  | some s => [(k, Value.vStr s)]
  | none => []

def optBoolF (k : String) (v : Option Bool) : Obj :=
  match v with
  | some b => [(k, Value.vBool b)]
  | none => []

def optNumF (k : String) (v : Option Int) : Obj :=
  match v with
  | some n => [(k, Value.vNum n)]
  | none => []

def optValF (k : String) (v : Option Value) : Obj :=
  match v with
  | some x => [(k, x)]
  | none => []

/-- Wrap inner msg fields in the legacy `codex/event/*` params shape. -/
def codexMsg (fields : Obj) : Value := Value.vObj [("msg", Value.vObj fields)]

/-- The legacy (msg-wrapped `codex/event/*`) notification for a datum. -/
def legacyNotif : NotifData → String × Value
  | .threadStarted t => ("codex/event/thread_started",
      codexMsg [("type", Value.vStr "thread_started"), ("thread_id", Value.vStr t)])
  | .turnStarted tid => ("codex/event/task_started",
      codexMsg ([("type", Value.vStr "task_started")] ++ optStrF "turn_id" tid))
  | .turnCompleted tid => ("codex/event/task_complete",
      codexMsg ([("type", Value.vStr "task_complete")] ++ optStrF "turn_id" tid))
  | .turnAborted tid => ("codex/event/turn_aborted",
      codexMsg ([("type", Value.vStr "turn_aborted")] ++ optStrF "turn_id" tid))
  | .turnFailed tid err => ("codex/event/task_failed",
      codexMsg ([("type", Value.vStr "task_failed")] ++ optStrF "turn_id" tid ++
        optStrF "error" err))
  | .diffUpdated u => ("codex/event/turn_diff",
      codexMsg [("type", Value.vStr "turn_diff"), ("unified_diff", Value.vStr u)])
  | .tokenCount f => ("codex/event/token_count",
      codexMsg [("type", Value.vStr "token_count"), ("info", Value.vObj f)])
  | .agentMessageDone _ t => ("codex/event/agent_message",
      codexMsg [("type", Value.vStr "agent_message"), ("message", Value.vStr t)])
  | .reasoningDone _ t => ("codex/event/agent_reasoning",
      codexMsg [("type", Value.vStr "agent_reasoning"), ("text", Value.vStr t)])
  | .reasoningDelta d => ("codex/event/agent_reasoning_delta",
      codexMsg [("type", Value.vStr "agent_reasoning_delta"), ("delta", Value.vStr d)])
  | .sectionBreak => ("codex/event/agent_reasoning_section_break",
      codexMsg [("type", Value.vStr "agent_reasoning_section_break")])
  | .execBegin c cmd cwd aa => ("codex/event/exec_command_begin",
      codexMsg ([("type", Value.vStr "exec_command_begin"), ("call_id", Value.vStr c)] ++
        optStrF "command" cmd ++ optStrF "cwd" cwd ++ optBoolF "auto_approved" aa))
  | .execEnd c out errS errE exit => ("codex/event/exec_command_end",
      codexMsg ([("type", Value.vStr "exec_command_end"), ("call_id", Value.vStr c)] ++
        optStrF "output" out ++ optStrF "stderr" errS ++ optStrF "error" errE ++
        optNumF "exit_code" exit))
  | .patchBegin c chg aa => ("codex/event/patch_apply_begin",
      codexMsg ([("type", Value.vStr "patch_apply_begin"), ("call_id", Value.vStr c)] ++
        optValF "changes" chg ++ optBoolF "auto_approved" aa))
  | .patchEnd c so se succ => ("codex/event/patch_apply_end",
      codexMsg ([("type", Value.vStr "patch_apply_end"), ("call_id", Value.vStr c)] ++
        optStrF "stdout" so ++ optStrF "stderr" se ++ optBoolF "success" succ))

/-- The structured notification for the same datum. -/
def structuredNotif : NotifData → String × Value
  | .threadStarted t => ("thread/started", Value.vObj [("threadId", Value.vStr t)])
  | .turnStarted tid => ("turn/started", Value.vObj (optStrF "turnId" tid))
  | .turnCompleted tid => ("turn/completed", Value.vObj (optStrF "turnId" tid))
  | .turnAborted tid => ("turn/completed",
      Value.vObj ([("status", Value.vStr "cancelled")] ++ optStrF "turnId" tid))
  | .turnFailed tid err => ("turn/completed",
      Value.vObj ([("status", Value.vStr "failed")] ++ optStrF "turnId" tid ++
        optStrF "error" err))
  | .diffUpdated u => ("turn/diff/updated", Value.vObj [("diff", Value.vStr u)])
  | .tokenCount f => ("thread/tokenUsage/updated",
      Value.vObj [("tokenUsage", Value.vObj f)])
  | .agentMessageDone i t => ("item/completed",
      Value.vObj [("item", Value.vObj [("type", Value.vStr "agentMessage"),
        ("id", Value.vStr i), ("text", Value.vStr t)])])
  | .reasoningDone i t => ("item/completed",
      Value.vObj [("item", Value.vObj [("type", Value.vStr "reasoning"),
        ("id", Value.vStr i), ("text", Value.vStr t)])])
  | .reasoningDelta d => ("item/reasoning/textDelta", Value.vObj [("delta", Value.vStr d)])
  | .sectionBreak => ("item/reasoning/summaryPartAdded", Value.vObj [])
  | .execBegin c cmd cwd aa => ("item/started",
      Value.vObj [("item", Value.vObj ([("type", Value.vStr "commandExecution"),
        ("id", Value.vStr c)] ++ optStrF "command" cmd ++ optStrF "cwd" cwd ++
        optBoolF "autoApproved" aa))])
  | .execEnd c out errS errE exit => ("item/completed",
      Value.vObj [("item", Value.vObj ([("type", Value.vStr "commandExecution"),
        ("id", Value.vStr c)] ++ optStrF "output" out ++ optStrF "stderr" errS ++
        optStrF "error" errE ++ optNumF "exitCode" exit))])
  | .patchBegin c chg aa => ("item/started",
      Value.vObj [("item", Value.vObj ([("type", Value.vStr "fileChange"),
        ("id", Value.vStr c)] ++ optValF "changes" chg ++ optBoolF "autoApproved" aa))])
  | .patchEnd c so se succ => ("item/completed",
      Value.vObj [("item", Value.vObj ([("type", Value.vStr "fileChange"),
        ("id", Value.vStr c)] ++ optStrF "stdout" so ++ optStrF "stderr" se ++
        optBoolF "success" succ))])

/-- Well-formedness: ids and present string fields are non-empty (the
parser treats empty strings as absent, so a datum with an empty string is
not expressible as a present field in either shape). -/
def NotifData.wf : NotifData → Prop
  | .threadStarted t => t ≠ ""
  | .turnStarted tid => okStr tid
  | .turnCompleted tid => okStr tid
  | .turnAborted tid => okStr tid
  | .turnFailed tid err => okStr tid ∧ okStr err
  | .diffUpdated u => u ≠ ""
  | .tokenCount _ => True
  | .agentMessageDone i t => i ≠ "" ∧ t ≠ ""
  | .reasoningDone i t => i ≠ "" ∧ t ≠ ""
  | .reasoningDelta d => d ≠ ""
  | .sectionBreak => True
  | .execBegin c cmd cwd _ => c ≠ "" ∧ okStr cmd ∧ okStr cwd
  | .execEnd c out errS errE _ => c ≠ "" ∧ okStr out ∧ okStr errS ∧ okStr errE
  | .patchBegin c _ _ => c ≠ ""
  | .patchEnd c so se _ => c ≠ "" ∧ okStr so ∧ okStr se

/-- State precondition: an exec end with no inline output requires no
buffered output for its call id (only the structured shape flushes the
buffer, so transparency holds only when there is nothing to flush). -/
def NotifData.pre : NotifData → ConverterState → Prop
  | .execEnd c out _ _ _, st => out = none → mapGet st.commandOutputBuffers c = none
  | _, _ => True

theorem lower_cancelled : strToLower "cancelled" = "cancelled" := rfl

theorem alt_vNull_right (v : Value) : alt v Value.vNull = v := by
  cases v <;> rfl

theorem alt_vNull_left (b : Value) : alt Value.vNull b = b := rfl

theorem alt_vStr (s : String) (b : Value) : alt (Value.vStr s) b = Value.vStr s := rfl

theorem alt_vBool (x : Bool) (b : Value) : alt (Value.vBool x) b = Value.vBool x := rfl

theorem alt_vObj (f : Obj) (b : Value) : alt (Value.vObj f) b = Value.vObj f := rfl

/-- Claim C1 (amended): for every notification datum expressible in both
protocol shapes — thread started; turn started/completed/aborted/failed;
diff; token usage; agent-message and reasoning completions with inline
text; reasoning deltas; section breaks; exec begin/end; patch begin/end —
delivering the legacy msg-wrapped `codex/event/*` notification and
delivering the structured notification produce identical canonical event
sequences, from any state satisfying the exec-end buffer precondition.
Top-level `error` notifications are excluded (see the counterexample:
the two shapes treat `will_retry` and detail-unwrapping differently). -/
theorem shape_transparency (d : NotifData) (st : ConverterState)
    (hwf : d.wf) (hpre : d.pre st) :
    (handleNotification st (legacyNotif d).1 (legacyNotif d).2).1 =
    (handleNotification st (structuredNotif d).1 (structuredNotif d).2).1 := by
  cases d with
  | threadStarted t =>
    simp_all [NotifData.wf, handleNotification, codexByType, legacyNotif, structuredNotif,
      codexMsg, alt, asString, asRecord, Value.getField, getKey,
      swT_thread_started, swF_thread_started]
  | turnStarted tid =>
    rcases tid with _ | t <;>
      simp_all [NotifData.wf, okStr, handleNotification, codexByType, legacyNotif,
        structuredNotif, codexMsg, optStrF, alt, asString, asNumber, asRecord,
        Value.getField, getKey, addStrTruthy, addNumTruthy,
        swT_task_started, swF_turn_started]
  | turnCompleted tid =>
    rcases tid with _ | t <;>
      simp_all [NotifData.wf, okStr, handleNotification, codexByType, legacyNotif,
        structuredNotif, codexMsg, optStrF, alt, asString, asRecord, Value.getField,
        getKey, addStrTruthy, swT_task_complete, swF_turn_completed]
  | turnAborted tid =>
    rcases tid with _ | t <;>
      simp_all [NotifData.wf, okStr, handleNotification, codexByType, legacyNotif,
        structuredNotif, codexMsg, optStrF, alt, asString, asRecord, Value.getField,
        getKey, addStrTruthy, lower_cancelled, swT_turn_aborted, swF_turn_completed]
  | turnFailed tid err =>
    rcases tid with _ | t <;> rcases err with _ | e <;>
      simp_all [NotifData.wf, okStr, handleNotification, codexByType, legacyNotif,
        structuredNotif, codexMsg, optStrF, alt, asString, asRecord, Value.getField,
        getKey, addStrTruthy, swT_task_failed, swF_turn_completed,
        show strToLower "failed" = "failed" from rfl]
  | diffUpdated u =>
    simp_all [NotifData.wf, handleNotification, codexByType, legacyNotif, structuredNotif,
      codexMsg, alt, asString, asRecord, Value.getField, getKey,
      swT_turn_diff, swF_diff_updated]
  | tokenCount f =>
    simp_all [handleNotification, codexByType, legacyNotif, structuredNotif, codexMsg,
      alt, asString, asRecord, Value.getField, getKey, fieldsOf, spread, setKey,
      swT_token_count, swF_token_usage]
  | agentMessageDone i t =>
    simp_all [NotifData.wf, handleNotification, codexByType, handleItemEvent, legacyNotif,
      structuredNotif, codexMsg, extractItem, extractItemId, alt, asString, asRecord,
      Value.getField, getKey, nit_agentMessage, swT_agent_message, swF_item_completed]
  | reasoningDone i t =>
    simp_all [NotifData.wf, handleNotification, codexByType, handleItemEvent, legacyNotif,
      structuredNotif, codexMsg, extractItem, extractItemId, alt, asString, asRecord,
      Value.getField, getKey, nit_reasoning, swT_agent_reasoning, swF_item_completed]
  | reasoningDelta d =>
    simp_all [NotifData.wf, handleNotification, codexByType, legacyNotif, structuredNotif,
      codexMsg, extractItemId, alt, asString, asRecord, Value.getField, getKey,
      swT_reasoning_delta, swF_text_delta]
  | sectionBreak =>
    simp_all [handleNotification, codexByType, legacyNotif, structuredNotif, codexMsg,
      alt, asString, asRecord, Value.getField, getKey,
      swT_section_break, swF_summary_part]
  | execBegin c cmd cwd aa =>
    rcases cmd with _ | cmd <;> rcases cwd with _ | cwd <;> rcases aa with _ | aa <;>
      simp_all [NotifData.wf, okStr, handleNotification, codexByType, handleItemEvent,
        legacyNotif, structuredNotif, codexMsg, optStrF, optBoolF, extractItem,
        extractItemId, extractCommand, alt, asString, asBoolean, asRecord,
        Value.getField, getKey, addStrTruthy, addOptBool, spread, setKey,
        nit_commandExecution, swT_exec_begin, swF_item_started]
  | execEnd c out errS errE exit =>
    rcases out with _ | out <;> rcases errS with _ | errS <;> rcases errE with _ | errE <;>
      rcases exit with _ | exit <;>
      simp_all [NotifData.wf, NotifData.pre, okStr, handleNotification, codexByType,
        handleItemEvent, legacyNotif, structuredNotif, codexMsg, optStrF, optNumF,
        extractItem, extractItemId, alt, asString, asNumber, asRecord, Value.getField,
        getKey, addStrTruthy, addOptNum, spread, setKey,
        nit_commandExecution, swT_exec_end, swF_item_completed]
  | patchBegin c chg aa =>
    rcases chg with _ | chg <;> rcases aa with _ | aa <;>
      simp_all [NotifData.wf, handleNotification, codexByType, handleItemEvent,
        legacyNotif, structuredNotif, codexMsg, optValF, optBoolF, extractItem,
        extractItemId, alt_vNull_right, alt_vNull_left, alt_vStr, alt_vBool, alt_vObj,
        asString, asBoolean, asRecord,
        Value.getField, getKey, addOptVal, addOptBool, spread, setKey,
        nit_fileChange, swT_patch_begin, swF_item_started]
  | patchEnd c so se succ =>
    rcases so with _ | so <;> rcases se with _ | se <;> rcases succ with _ | succ <;>
      simp_all [NotifData.wf, okStr, handleNotification, codexByType, handleItemEvent,
        legacyNotif, structuredNotif, codexMsg, optStrF, optBoolF, extractItem,
        extractItemId, alt, asString, asBoolean, asRecord, Value.getField, getKey,
        addStrTruthy, addOptBool, spread, setKey,
        nit_fileChange, swT_patch_end, swF_item_completed]

/-- Claim C1 counterexample: a top-level transport error carrying the
same data in both shapes produces different event sequences — the legacy
shape ignores `will_retry` and emits `task_failed` where the structured
shape suppresses, and the legacy shape unwraps a JSON `detail` where the
structured shape carries the raw string. -/
theorem shape_transparency_counterexample :
    (handleNotification initialState "codex/event/error"
        (Value.vObj [("msg", Value.vObj [("type", Value.vStr "error"),
          ("message", Value.vStr "boom"), ("will_retry", Value.vBool true)])])).1 =
      [[("type", Value.vStr "task_failed"), ("error", Value.vStr "boom")]] ∧
    (handleNotification initialState "error"
        (Value.vObj [("message", Value.vStr "boom"),
          ("will_retry", Value.vBool true)])).1 = [] ∧
    (handleNotification initialState "codex/event/error"
        (Value.vObj [("msg", Value.vObj [("type", Value.vStr "error"),
          ("message", Value.vStr "\x7b\"detail\":\"boom\"\x7d")])])).1 =
      [[("type", Value.vStr "task_failed"), ("error", Value.vStr "boom")]] ∧
    (handleNotification initialState "error"
        (Value.vObj [("message", Value.vStr "\x7b\"detail\":\"boom\"\x7d")])).1 =
      [[("type", Value.vStr "task_failed"),
        ("error", Value.vStr "\x7b\"detail\":\"boom\"\x7d")]] ∧
    ("\x7b\"detail\":\"boom\"\x7d" : String) ≠ "boom" :=
  ⟨rfl, rfl, rfl, rfl, by decide⟩

/-- Witness for the amended C1: a thread-started datum and an exec-end
datum with no inline output, on a fresh converter. -/
theorem shape_transparency_witness :
    (handleNotification initialState (legacyNotif (NotifData.threadStarted "t1")).1
        (legacyNotif (NotifData.threadStarted "t1")).2).1 =
    (handleNotification initialState (structuredNotif (NotifData.threadStarted "t1")).1
        (structuredNotif (NotifData.threadStarted "t1")).2).1 ∧
    (handleNotification initialState
        (legacyNotif (NotifData.execEnd "c1" none none none none)).1
        (legacyNotif (NotifData.execEnd "c1" none none none none)).2).1 =
    (handleNotification initialState
        (structuredNotif (NotifData.execEnd "c1" none none none none)).1
        (structuredNotif (NotifData.execEnd "c1" none none none none)).2).1 :=
  ⟨shape_transparency (NotifData.threadStarted "t1") initialState
     (by simp [NotifData.wf]) trivial,
   shape_transparency (NotifData.execEnd "c1" none none none none) initialState
     ⟨by simp, trivial, trivial, trivial⟩ (fun _ => rfl)⟩
